import Mathlib

/-
Verification of the multi-signal transit detection and classification engine
of the exoplanet-discovery-agent repository.

The JavaScript source (src/unnamed/part_001) is embedded shallowly:
  * JS numbers are modelled as exact rationals (ℚ).  All arithmetic in the
    claims under study is structural (comparisons, clamping, binning), so the
    idealized-arithmetic model is faithful except where noted in comments.
  * Math.floor / Math.ceil / Math.round are Rat.floor / Rat.ceil and
    floor (x + 1/2); the JS remainder operator is jsMod below.
  * Math.sqrt is modelled by Rat.sqrt, which agrees with the real square root
    exactly when the radicand is the square of a rational; concrete inputs in
    the theorems below are chosen so that every square root taken is exact.
  * Mutable arrays are modelled by lists threaded through explicit state;
    JS out-of-bounds reads are modelled with List.getD (all call sites use
    equal-length time/flux arrays, where the model is exact).
  * Fallible external calls (the Supabase record store) are modelled by
    Except; a thrown JS error is Except.error.
-/

set_option maxRecDepth 1000

namespace Exo

/-- Sum of a list of rationals, as the JS reduce((a,b) => a+b, 0). -/
def listSum (l : List ℚ) : ℚ := l.foldl (· + ·) 0

/-- Arithmetic mean of a list, sum / length (callers always pass nonempty lists). -/
def listMean (l : List ℚ) : ℚ := listSum l / l.length

/-- Population variance: reduce((s,f) => s + (f-mean)^2, 0) / length. -/
def listVar (l : List ℚ) : ℚ :=
  let m := listMean l
  listSum (l.map (fun f => (f - m) * (f - m))) / l.length

/-- JS Math.floor on a rational. -/
def jsFloor (q : ℚ) : ℤ := q.floor

/-- Truncation toward zero: the implicit quotient of the JS % operator. -/
def ratTrunc (q : ℚ) : ℤ := if 0 ≤ q then q.floor else -((-q).floor)

/-- The JS remainder operator a % b (result has the sign of the dividend).
All call sites in the source use b > 0. -/
def jsMod (a b : ℚ) : ℚ := a - b * (ratTrunc (a / b) : ℚ)

/-- JS Math.round: round half toward positive infinity. -/
def jsRound (q : ℚ) : ℤ := (q + 1/2).floor

/-- Math.round(q * 100) / 100, the 2-decimal rounding used by calculateConfidence. -/
def round2 (q : ℚ) : ℚ := (jsRound (q * 100) : ℚ) / 100

/-- A rational is an exact multiple of 1/100, i.e. "rounded to 2 decimal places". -/
def isCent (q : ℚ) : Prop := (q * 100).den = 1

/-- Feature vector produced by the detection stage and consumed by the
classifiers (orbital_period, transit_depth, snr, transit_duration,
planetary_radius).  snr is Option ℚ because calculateConfidence explicitly
checks it for null/undefined. -/
structure Features where
  orbital_period : ℚ
  transit_depth : ℚ
  snr : Option ℚ
  transit_duration : ℚ
  planetary_radius : ℚ
deriving Repr, DecidableEq

/-- JS truthiness test "features.snr && features.snr > c" for the nonnegative
thresholds c used in the source (0 is falsy and also fails 0 > c). -/
def snrGt (o : Option ℚ) (c : ℚ) : Prop :=
  match o with
  | some s => s > c
  | none => False

instance (o : Option ℚ) (c : ℚ) : Decidable (snrGt o c) := by
  unfold snrGt; cases o <;> infer_instance

/-- calculateConfidence (src/unnamed/part_001 lines 113-150): adjusts a base
confidence by SNR tier and physical plausibility, clamps to [0.50, 0.99] and
rounds to 2 decimals. -/
def calculateConfidence (features : Features) (type : String) : ℚ :=
  let baseConfidence : ℚ := if type = "confirmed" then 90/100 else 70/100
  let snrAdj : ℚ :=
    match features.snr with
    | some s =>
      if s > 50 then 8/100
      else if s > 20 then 5/100
      else if s > 10 then 2/100
      else if s < 7 then -(10/100)
      else 0
    | none => 0
  let periodAdj : ℚ :=
    if features.orbital_period > 0 ∧ features.orbital_period < 500 then 2/100 else 0
  let radiusAdj : ℚ :=
    if features.planetary_radius > 1/2 ∧ features.planetary_radius < 20 then 2/100
    else if features.planetary_radius > 20 ∨ features.planetary_radius < 3/10 then -(5/100)
    else 0
  let depthAdj : ℚ :=
    if features.transit_depth > 0 ∧ features.transit_depth < 50000 then 1/100 else 0
  let confidenceAdjustment := snrAdj + periodAdj + radiusAdj + depthAdj
  let finalConfidence := max (50/100) (min (99/100) (baseConfidence + confidenceAdjustment))
  round2 finalConfidence

/-- Result of one classification: label, probability, reasoning text. -/
structure ClassificationResult where
  classification : String
  probability : ℚ
  reasoning : String
deriving Repr, DecidableEq

/-- fallbackClassification (lines 549-569): deterministic rule table used when
the external classifier is unavailable. -/
def fallbackClassification (features : Features) : ClassificationResult :=
  if snrGt features.snr 10 ∧
     features.orbital_period > 1/2 ∧ features.orbital_period < 500 ∧
     features.planetary_radius > 1/2 ∧ features.planetary_radius < 20 then
    { classification := "Confirmed Planet",
      probability := calculateConfidence features "confirmed",
      reasoning := "High SNR and physically plausible parameters" }
  else if snrGt features.snr 5 ∧ features.orbital_period > 1/2 then
    { classification := "Candidate Planet",
      probability := calculateConfidence features "candidate",
      reasoning := "Moderate SNR, needs follow-up observation" }
  else
    { classification := "False Positive",
      probability := 3/10,
      reasoning := "Rule-based classification due to AI unavailability" }

/-- The clamp-then-round tail of the confidence model: whatever the adjusted
base value x is, max(0.50, min(0.99, x)) rounded to 2 decimals lies in
[0.50, 0.99] and is an exact hundredth. -/
theorem round2_clamp (x : ℚ) :
    1/2 ≤ round2 (max (50/100) (min (99/100) x)) ∧
    round2 (max (50/100) (min (99/100) x)) ≤ 99/100 ∧
    isCent (round2 (max (50/100) (min (99/100) x))) := by
  set c : ℚ := max (50/100) (min (99/100) x) with hc
  have h1 : (1/2 : ℚ) ≤ c := le_trans (by norm_num) (le_max_left _ _)
  have h2 : c ≤ 99/100 := max_le (by norm_num) (min_le_left _ _)
  have hlo : (50 : ℤ) ≤ (c * 100 + 1/2).floor := Rat.le_floor.2 (by push_cast; linarith)
  have hhi : (c * 100 + 1/2).floor ≤ 99 := by
    by_contra h
    push_neg at h
    have h100 : ((100 : ℤ) : ℚ) ≤ c * 100 + 1/2 := Rat.le_floor.1 (by omega)
    push_cast at h100
    linarith
  have hlo2 : ((50 : ℤ) : ℚ) ≤ ((c * 100 + 1/2).floor : ℚ) := Int.cast_le.mpr hlo
  have hhi2 : ((c * 100 + 1/2).floor : ℚ) ≤ ((99 : ℤ) : ℚ) := Int.cast_le.mpr hhi
  push_cast at hlo2 hhi2
  unfold round2 jsRound isCent
  refine ⟨by rw [le_div_iff (by norm_num)]; linarith,
          by rw [div_le_iff (by norm_num)]; linarith, ?_⟩
  have hmul : ((c * 100 + 1/2).floor : ℚ) / 100 * 100 = ((c * 100 + 1/2).floor : ℚ) := by
    field_simp
  rw [hmul]
  exact Rat.den_intCast _

/-- The clamp-then-round pipeline of calculateConfidence always lands in
[0.50, 0.99] on an exact hundredth, for every feature vector and type. -/
theorem calculateConfidence_bounds (features : Features) (type : String) :
    1/2 ≤ calculateConfidence features type ∧
    calculateConfidence features type ≤ 99/100 ∧
    isCent (calculateConfidence features type) := by
  unfold calculateConfidence
  exact round2_clamp _

/-- C3, counterexample: a low-SNR feature vector falls into the
fallback's False-Positive branch, whose fixed probability 0.30 lies outside
[0.50, 0.99]; so "for every feature input the fallback probability lies in
[0.50, 0.99]" is false as stated. -/
theorem fallback_prob_out_of_range :
    (fallbackClassification ⟨1, 100, some 1, 1, 1⟩).probability = 3/10 ∧
    ¬(1/2 ≤ (fallbackClassification ⟨1, 100, some 1, 1, 1⟩).probability) :=
  ⟨by with_unfolding_all rfl,
   of_decide_eq_false (by with_unfolding_all rfl)⟩

/-- C3, amended: for every feature input (including extreme values such as
snr = 10000 or radius = -5), the fallback classification either returns the
False-Positive label with its fixed probability 0.30, or a probability that
comes from the confidence model and lies in [0.50, 0.99] rounded to 2
decimal places. -/
theorem fallback_prob_clamped (features : Features) :
    ((fallbackClassification features).classification = "False Positive" ∧
      (fallbackClassification features).probability = 3/10) ∨
    (1/2 ≤ (fallbackClassification features).probability ∧
      (fallbackClassification features).probability ≤ 99/100 ∧
      isCent ((fallbackClassification features).probability)) := by
  unfold fallbackClassification
  split
  · right; exact calculateConfidence_bounds features "confirmed"
  · split
    · right; exact calculateConfidence_bounds features "candidate"
    · left; exact ⟨rfl, rfl⟩

/-- A record of the exoplanets store (the Supabase table).  The store itself
is external; it is modelled as the list of previously inserted records, in
insertion order. -/
structure PlanetData where
  planet_name : String
  host_star : String
  period : ℚ
  radius : ℚ
  depth : ℚ
  classification : String
  probability : ℚ
  discovery_date : String
  dataset : String
deriving Repr, DecidableEq

/-- planetExists (lines 658-699), the Deduplication Gate.  The two store
queries are modelled over the record list: the name query returns a match iff
some record has exactly the proposed name, and the host query returns the
same-host records limited to 10, as in the source (.limit(10)).  The catch
branch (query failure returns false) is not modelled: the store model is
total. -/
def planetExists (store : List PlanetData) (planetName hostStar : String) (period : ℚ) : Bool :=
  let nameMatch := store.any (fun r => r.planet_name == planetName)
  if nameMatch then true
  else if hostStar ≠ "" ∧ hostStar ≠ "Unknown" ∧ period ≠ 0 then
    let orbitMatch := (store.filter (fun r => r.host_star == hostStar)).take 10
    if orbitMatch.length > 0 then
      orbitMatch.any (fun planet =>
        let periodDiff := |planet.period - period|
        let percentDiff := periodDiff / period * 100
        decide (percentDiff < 1))
    else false
  else false

/-- The guard "if (orbitMatch && orbitMatch.length > 0)" collapses: any is
false on the empty list. -/
theorem any_length_guard (l : List PlanetData) (f : PlanetData → Bool) :
    (if l.length > 0 then l.any f else false) = l.any f := by
  cases l <;> simp

/-- A store record used in concrete scenarios. -/
def mkRec (name host : String) (period : ℚ) : PlanetData :=
  ⟨name, host, period, 1, 100, "Candidate Planet", 8/10, "2024-01-01T00:00:00Z", "uploaded"⟩

/-- Eleven records around the same host: the first ten have periods far from
10 days, the eleventh has period exactly 10 days. -/
def elevenStore : List PlanetData :=
  [mkRec "P0" "HostX" 100, mkRec "P1" "HostX" 101, mkRec "P2" "HostX" 102,
   mkRec "P3" "HostX" 103, mkRec "P4" "HostX" 104, mkRec "P5" "HostX" 105,
   mkRec "P6" "HostX" 106, mkRec "P7" "HostX" 107, mkRec "P8" "HostX" 108,
   mkRec "P9" "HostX" 109, mkRec "P10" "HostX" 10]

/-- C7, counterexample: the store holds a record with the same host
("HostX") and a period within 1% of the proposed period 10 (in fact equal),
and no record with the proposed name, yet planetExists does not reject the
proposal: the matching record is the eleventh with that host and the source
queries the store with limit 10. -/
theorem planetExists_misses_eleventh :
    planetExists elevenStore "Fresh" "HostX" 10 = false ∧
    elevenStore.any
      (fun r => r.host_star == "HostX" && decide (|r.period - 10| / 10 * 100 < 1)) = true ∧
    elevenStore.any (fun r => r.planet_name == "Fresh") = false := by
  refine ⟨?_, ?_, ?_⟩ <;> with_unfolding_all rfl

/-- C7, amended: the Deduplication Gate rejects iff a record with the exact
proposed name exists, or the host is known (nonempty and not "Unknown"), a
nonzero period is given, and some record among the first 10 records the
store returns for that host has a period within 1% relative difference of
the proposed one (measured against the proposed period).  In particular a
proposal whose period differs by at least 1% from all of those records, or
whose host is "Unknown" with a fresh name, is not rejected. -/
theorem planetExists_iff (store : List PlanetData) (planetName hostStar : String) (period : ℚ) :
    planetExists store planetName hostStar period = true ↔
      (∃ r ∈ store, r.planet_name = planetName) ∨
      (hostStar ≠ "" ∧ hostStar ≠ "Unknown" ∧ period ≠ 0 ∧
        ∃ r ∈ (store.filter (fun r => r.host_star == hostStar)).take 10,
          |r.period - period| / period * 100 < 1) := by
  simp only [planetExists]
  cases hname : store.any (fun r => r.planet_name == planetName) with
  | true =>
    rw [if_pos rfl]
    simp only [List.any_eq_true, beq_iff_eq] at hname
    simp only [true_iff]
    exact Or.inl hname
  | false =>
    rw [if_neg (by simp)]
    have hno : ¬∃ r ∈ store, r.planet_name = planetName := by
      simp only [List.any_eq_false, beq_iff_eq] at hname
      rintro ⟨r, hr, he⟩
      exact hname r hr he
    by_cases hg : hostStar ≠ "" ∧ hostStar ≠ "Unknown" ∧ period ≠ 0
    · rw [if_pos hg, any_length_guard]
      simp only [List.any_eq_true, decide_eq_true_eq]
      constructor
      · rintro ⟨r, hr, hlt⟩
        exact Or.inr ⟨hg.1, hg.2.1, hg.2.2, r, hr, hlt⟩
      · rintro (h | ⟨_, _, _, r, hr, hlt⟩)
        · exact absurd h hno
        · exact ⟨r, hr, hlt⟩
    · rw [if_neg hg]
      simp only [Bool.false_eq_true, false_iff]
      rintro (h | ⟨h1, h2, h3, _⟩)
      · exact hno h
      · exact hg ⟨h1, h2, h3⟩

/-- JS Math.ceil on a rational. -/
def jsCeil (q : ℚ) : ℤ := -((-q).floor)

/-- One point of the phase-folded plot. -/
structure PlotPoint where
  x : ℚ
  y : ℚ
deriving Repr, DecidableEq

/-- The point sequence of generatePlotData before sorting: phases and
normalized fluxes are built index-aligned (the JS .map((phase, i) => ...)
with .filter((_, i) => i % step === 0), the filter index being the original
array index). -/
def plotPointsRaw (times fluxes : List ℚ) (period : ℚ) : List PlotPoint :=
  let meanFlux := listMean fluxes
  let normalizedFluxes := fluxes.map (fun f => f / meanFlux)
  let phases := times.map (fun t => jsMod t period / period)
  let step : ℕ := (jsCeil ((phases.length : ℚ) / 2000)).toNat
  (((List.range phases.length).map
      (fun i => (i, PlotPoint.mk (phases.getD i 0) (normalizedFluxes.getD i 0)))).filter
    (fun p => p.1 % step == 0)).map Prod.snd

/-- generatePlotData (lines 729-747), after the time/flux columns have been
extracted from the table (the wrapper's column detection and the resulting
extraction, lines 705-727, happen upstream).  Normalizes flux by the mean,
phase-folds, keeps every step-th point (step = ceil(n/2000)) and sorts by
phase; JS Array.prototype.sort with the comparator (a,b) => a.x - b.x is
modelled by a stable insertion sort on x. -/
def generatePlotData (times fluxes : List ℚ) (period : ℚ) : List PlotPoint :=
  if times.length = 0 ∨ fluxes.length = 0 then []
  else (plotPointsRaw times fluxes period).insertionSort (fun a b => a.x ≤ b.x)

/-- Counting the indices below n kept by uniform striding: when n ≤ 2000 * s,
at most 2000 indices i < n satisfy i % s = 0. -/
theorem stride_count_le (n s : ℕ) (hs : 0 < s) (hn : n ≤ 2000 * s) :
    ((List.range n).filter (fun i => i % s == 0)).length ≤ 2000 := by
  have hsub : (List.range n).filter (fun i => i % s == 0) ⊆
      (List.range 2000).map (fun k => k * s) := by
    intro i hi
    simp only [List.mem_filter, List.mem_range, beq_iff_eq] at hi
    have hdvd : s ∣ i := Nat.dvd_of_mod_eq_zero hi.2
    have hq : i / s * s = i := Nat.div_mul_cancel hdvd
    have hlt : i / s < 2000 := by
      rw [Nat.div_lt_iff_lt_mul hs]
      exact lt_of_lt_of_le hi.1 hn
    simp only [List.mem_map, List.mem_range]
    exact ⟨i / s, hlt, hq⟩
  have hnodup : ((List.range n).filter (fun i => i % s == 0)).Nodup :=
    (List.nodup_range n).filter _
  calc ((List.range n).filter (fun i => i % s == 0)).length
      ≤ ((List.range 2000).map (fun k => k * s)).length :=
        (hnodup.subperm hsub).length_le
    _ = 2000 := by simp

/-- getD through map, at an in-range index. -/
theorem getD_map_lt (l : List ℚ) (g : ℚ → ℚ) (j : ℕ) (h : j < l.length) :
    (l.map g).getD j 0 = g (l.getD j 0) := by
  rw [List.getD_eq_getElem?_getD, List.getD_eq_getElem?_getD, List.getElem?_map,
    List.getElem?_eq_getElem h]
  rfl

/-- Every raw plot point is a (phase, normalized flux) pair taken at some
in-range sample index. -/
theorem plotPointsRaw_mem (times fluxes : List ℚ) (period : ℚ) (pt : PlotPoint)
    (h : pt ∈ plotPointsRaw times fluxes period) :
    ∃ i < times.length,
      pt = ⟨(times.map (fun t => jsMod t period / period)).getD i 0,
            (fluxes.map (fun f => f / listMean fluxes)).getD i 0⟩ := by
  simp only [plotPointsRaw, List.mem_map, List.mem_filter, List.mem_range] at h
  obtain ⟨⟨i, q⟩, ⟨hmem, _⟩, hq⟩ := h
  obtain ⟨j, hj, hji⟩ := hmem
  rw [List.length_map] at hj
  refine ⟨j, hj, ?_⟩
  have h1 : j = i := congrArg Prod.fst hji
  have h2 : PlotPoint.mk ((times.map (fun t => jsMod t period / period)).getD j 0)
      ((fluxes.map (fun f => f / listMean fluxes)).getD j 0) = q := congrArg Prod.snd hji
  rw [← hq, ← h2]

/-- The raw plot point list never exceeds 2000 points. -/
theorem plotPointsRaw_length (times fluxes : List ℚ) (period : ℚ)
    (hstep : 0 < (jsCeil ((times.length : ℚ) / 2000)).toNat)
    (hbound : times.length ≤ 2000 * (jsCeil ((times.length : ℚ) / 2000)).toNat) :
    (plotPointsRaw times fluxes period).length ≤ 2000 := by
  simp only [plotPointsRaw, List.length_map, List.filter_map]
  exact stride_count_le times.length ((jsCeil ((times.length : ℚ) / 2000)).toNat) hstep hbound

/-- The list length is positive implies the computed stride is positive and
bounds n by 2000 * step. -/
theorem stride_bound (n : ℕ) (hn : 0 < n) :
    0 < (jsCeil ((n : ℚ) / 2000)).toNat ∧ n ≤ 2000 * (jsCeil ((n : ℚ) / 2000)).toNat := by
  unfold jsCeil
  have hfl : (((-((n : ℚ) / 2000)).floor : ℤ) : ℚ) ≤ -((n : ℚ) / 2000) := Rat.le_floor.1 le_rfl
  generalize hzz : (-((n : ℚ) / 2000)).floor = z at *
  have hle : ((n : ℚ) / 2000) ≤ ((-z : ℤ) : ℚ) := by push_cast; linarith [hfl]
  have hpos : (0 : ℚ) < (n : ℚ) / 2000 := by positivity
  have hzpos : (0 : ℤ) < -z := by
    by_contra h
    push_neg at h
    have h2 : ((-z : ℤ) : ℚ) ≤ 0 := by exact_mod_cast h
    linarith
  constructor
  · omega
  · have hnle : (n : ℚ) ≤ ((-z : ℤ) : ℚ) * 2000 := by
      rw [div_le_iff (by norm_num : (0:ℚ) < 2000)] at hle
      linarith
    have hnle2 : (n : ℤ) ≤ (-z) * 2000 := by exact_mod_cast hnle
    omega

/-- C9: for every light curve (times and fluxes of equal length, of any
size) and every positive period, the plot builder's output is sorted
ascending by phase, holds at most 2000 points, and every point's y-value is
the corresponding flux normalized by the series mean (its x-value the phase
of the corresponding time).  The positivity hypothesis scopes the statement
to the data model's period domain (JS produces NaNs for period 0, outside
the rational model). -/
theorem generatePlotData_sorted_bounded (times fluxes : List ℚ) (period : ℚ)
    (hlen : times.length = fluxes.length) (hp : 0 < period) :
    List.Sorted (fun a b : PlotPoint => a.x ≤ b.x) (generatePlotData times fluxes period) ∧
    (generatePlotData times fluxes period).length ≤ 2000 ∧
    ∀ pt ∈ generatePlotData times fluxes period, ∃ i < times.length,
      pt.x = jsMod (times.getD i 0) period / period ∧
      pt.y = fluxes.getD i 0 / listMean fluxes := by
  haveI hTot : IsTotal PlotPoint (fun a b => a.x ≤ b.x) := ⟨fun a b => le_total a.x b.x⟩
  haveI hTr : IsTrans PlotPoint (fun a b => a.x ≤ b.x) := ⟨fun _ _ _ hab hbc => le_trans hab hbc⟩
  simp only [generatePlotData]
  by_cases h0 : times.length = 0 ∨ fluxes.length = 0
  · rw [if_pos h0]
    exact ⟨List.sorted_nil, by simp, by simp⟩
  · rw [if_neg h0]
    push_neg at h0
    have hnpos : 0 < times.length := Nat.pos_of_ne_zero h0.1
    have hlm : (times.map (fun t => jsMod t period / period)).length = times.length :=
      List.length_map _ _
    have hperm := List.perm_insertionSort (fun a b : PlotPoint => a.x ≤ b.x)
      (plotPointsRaw times fluxes period)
    refine ⟨List.sorted_insertionSort _ _, ?_, ?_⟩
    · rw [hperm.length_eq]
      have hb := stride_bound times.length hnpos
      exact plotPointsRaw_length times fluxes period hb.1 hb.2
    · intro pt hpt
      rw [hperm.mem_iff] at hpt
      obtain ⟨i, hi, hpt⟩ := plotPointsRaw_mem times fluxes period pt hpt
      refine ⟨i, hi, ?_, ?_⟩
      · rw [hpt]
        exact getD_map_lt times _ i hi
      · rw [hpt]
        exact getD_map_lt fluxes _ i (hlen ▸ hi)

/-- C9, witness: the plot-builder theorem instantiated on a concrete
3-sample light curve with period 2. -/
theorem generatePlotData_sorted_bounded_witness :
    ([0, 1, 3] : List ℚ).length = ([1, 1, 2] : List ℚ).length ∧ (0 : ℚ) < 2 ∧
    (List.Sorted (fun a b : PlotPoint => a.x ≤ b.x) (generatePlotData [0, 1, 3] [1, 1, 2] 2) ∧
     (generatePlotData [0, 1, 3] [1, 1, 2] 2).length ≤ 2000 ∧
     ∀ pt ∈ generatePlotData [0, 1, 3] [1, 1, 2] 2, ∃ i < ([0, 1, 3] : List ℚ).length,
       pt.x = jsMod (([0, 1, 3] : List ℚ).getD i 0) 2 / 2 ∧
       pt.y = ([1, 1, 2] : List ℚ).getD i 0 / listMean [1, 1, 2]) :=
  ⟨rfl, by norm_num, generatePlotData_sorted_bounded [0, 1, 3] [1, 1, 2] 2 rfl (by norm_num)⟩

/-- A raw detected signal as pushed by detectMultiplePeriods (lines 378-388). -/
structure DetectedSignal where
  orbital_period : ℚ
  transit_depth : ℚ
  snr : ℚ
  transit_duration : ℚ
  planetary_radius : ℚ
  odd_even_diff : ℚ
  data_points : ℕ
  mean_flux : ℚ
  std_flux : ℚ
deriving Repr, DecidableEq

/-- Running best candidate of the inner period search (bestPeriod null at
start; bestTransitIndices is also tracked by the source but never read
afterwards, so it is omitted here). -/
structure SearchBest where
  bestPeriod : Option ℚ
  bestDepth : ℚ
  bestSNR : ℚ
deriving Repr, DecidableEq

/-- Whether a candidate period is within 10% of ratio 1, 2, 3, 0.5 or 0.33
of one already-detected period (lines 309-317). -/
def similarRatio (period detectedP : ℚ) : Bool :=
  let ratio := period / detectedP
  decide (|ratio - 1| < 1/10) || decide (|ratio - 2| < 1/10) || decide (|ratio - 3| < 1/10) ||
  decide (|ratio - 1/2| < 1/10) || decide (|ratio - 33/100| < 1/10)

/-- isTooSimilar: some already-detected period is duplicate/harmonic-close. -/
def isTooSimilar (detectedPeriodValues : List ℚ) (period : ℚ) : Bool :=
  detectedPeriodValues.any (similarRatio period)

/-- Phase of every sample: (t % period) / period (lines 322, 395). -/
def phasesOf (times : List ℚ) (period : ℚ) : List ℚ :=
  times.map (fun t => jsMod t period / period)

/-- One pass over the samples filling the 50 phase bins with flux sums and
counts (lines 325-335); bins outside [0, 50) are skipped. -/
def accumBins (phases residual : List ℚ) : List ℚ × List ℕ :=
  (phases.zip residual).foldl
    (fun acc pr =>
      let bin := jsFloor (pr.1 * 50)
      if 0 ≤ bin ∧ bin < 50 then
        (acc.1.set bin.toNat (acc.1.getD bin.toNat 0 + pr.2),
         acc.2.set bin.toNat (acc.2.getD bin.toNat 0 + 1))
      else acc)
    (List.replicate 50 0, List.replicate 50 0)

/-- Mean flux per phase bin; empty bins fall back to the global mean
(lines 338-340). -/
def binnedMeanList (phases residual : List ℚ) (meanFlux : ℚ) : List ℚ :=
  let bins := accumBins phases residual
  (List.range 50).map (fun idx =>
    if bins.2.getD idx 0 > 0 then bins.1.getD idx 0 / (bins.2.getD idx 0 : ℚ) else meanFlux)

/-- Minimum of a nonempty list, Math.min(...binnedMean). -/
def listMin : List ℚ → ℚ
  | [] => 0
  | x :: xs => xs.foldl min x

/-- First index of a value in a list, Array.prototype.indexOf (all uses look
up the minimum of the same list, which is present). -/
def firstIdxOf : List ℚ → ℚ → ℕ
  | [], _ => 0
  | x :: xs, v => if x = v then 0 else firstIdxOf xs v + 1

/-- The transit bin of a candidate period: index of the minimum binned mean
(line 343). -/
def transitBinAt (times residual : List ℚ) (period meanFlux : ℚ) : ℕ :=
  let bm := binnedMeanList (phasesOf times period) residual meanFlux
  firstIdxOf bm (listMin bm)

/-- Transit depth of a candidate period in ppm (line 344). -/
def transitDepthAt (times residual : List ℚ) (period meanFlux : ℚ) : ℚ :=
  let bm := binnedMeanList (phasesOf times period) residual meanFlux
  (meanFlux - bm.getD (firstIdxOf bm (listMin bm)) 0) / meanFlux * 1000000

/-- SNR of a candidate period (line 347). -/
def snrAt (times residual : List ℚ) (period meanFlux stdFlux : ℚ) : ℚ :=
  transitDepthAt times residual period meanFlux / (stdFlux / meanFlux * 1000000)

/-- One step of the 200-step grid search (lines 305-366): skip candidates
too similar to an already-detected period, otherwise keep the candidate if
it beats the current best SNR, clears the threshold and is deeper than
5 ppm. -/
def searchStep (times residual : List ℚ) (meanFlux stdFlux minPeriod maxPeriod snrThreshold : ℚ)
    (detectedPeriodValues : List ℚ) (st : SearchBest) (i : ℕ) : SearchBest :=
  let period := minPeriod + (maxPeriod - minPeriod) * ((i : ℚ) / 200)
  if isTooSimilar detectedPeriodValues period then st
  else
    let transitDepth := transitDepthAt times residual period meanFlux
    let snr := snrAt times residual period meanFlux stdFlux
    if snr > st.bestSNR ∧ snr > snrThreshold ∧ transitDepth > 5 then
      ⟨some period, transitDepth, snr⟩
    else st

/-- The Periodic Signal Searcher for one planet: 200 candidate periods
linearly spaced on [minPeriod, maxPeriod). -/
def searchBestPeriod (times residual : List ℚ)
    (meanFlux stdFlux minPeriod maxPeriod snrThreshold : ℚ)
    (detectedPeriodValues : List ℚ) : SearchBest :=
  (List.range 200).foldl
    (searchStep times residual meanFlux stdFlux minPeriod maxPeriod snrThreshold
      detectedPeriodValues)
    ⟨none, 0, 0⟩

/-- JS Array.prototype.findIndex over indices 0..n-1: the found index, or -1. -/
def jsFindIdx (pred : ℕ → Bool) (n : ℕ) : ℤ :=
  match (List.range n).findIdx? pred with
  | some i => (i : ℤ)
  | none => -1

/-- Masking of an accepted signal (lines 393-406): transitBin is
Math.floor(findIndex(residual below depth threshold) / 50); samples whose
phase bin is within 2 of it, or at distance at least 48 (wrap-around), have
their residual set to the global mean. -/
def maskResidual (times residual : List ℚ) (meanFlux bestDepth bestPeriod : ℚ) : List ℚ :=
  let phases := phasesOf times bestPeriod
  let found := jsFindIdx
    (fun idx => decide (residual.getD idx 0 < meanFlux - bestDepth / 1000000 * meanFlux))
    phases.length
  let transitBin : ℤ := jsFloor ((found : ℚ) / 50)
  (List.range phases.length).foldl
    (fun res idx =>
      let phaseBin : ℤ := jsFloor (phases.getD idx 0 * 50)
      if |phaseBin - transitBin| ≤ 2 ∨ |phaseBin - transitBin| ≥ 48 then
        res.set idx meanFlux
      else res)
    residual

/-- The SNR acceptance threshold of iteration planetNum:
2 + planetNum * 0.5 (line 301). -/
def snrThresholdOf (planetNum : ℕ) : ℚ := 2 + (planetNum : ℚ) * (1/2)

/-- State of the Multi-Signal Extractor loop (lines 279-301): the input
arrays, the residual copy, the statistics computed once up front, the period
grid bounds, and the accumulated detections.  planetNum is the loop
counter. -/
structure ExtractState where
  times : List ℚ
  fluxes : List ℚ
  residualFluxes : List ℚ
  meanFlux : ℚ
  stdFlux : ℚ
  minPeriod : ℚ
  maxPeriod : ℚ
  detectedPeriodValues : List ℚ
  detectedPeriods : List DetectedSignal
  planetNum : ℕ
deriving Repr

/-- Initial extractor state: residual is a copy of the flux array, the mean
and standard deviation are computed once from the input flux, minPeriod is
0.5 days and maxPeriod is min(span/3, 500). -/
def initExtract (times fluxes : List ℚ) : ExtractState :=
  { times := times
    fluxes := fluxes
    residualFluxes := fluxes
    meanFlux := listMean fluxes
    stdFlux := Rat.sqrt (listVar fluxes)
    minPeriod := 1/2
    maxPeriod := min ((times.getLastD 0 - times.headD 0) / 3) 500
    detectedPeriodValues := []
    detectedPeriods := []
    planetNum := 0 }

/-- The search of the current iteration, with the iteration's threshold. -/
def iterBest (st : ExtractState) : SearchBest :=
  searchBestPeriod st.times st.residualFluxes st.meanFlux st.stdFlux st.minPeriod st.maxPeriod
    (snrThresholdOf st.planetNum) st.detectedPeriodValues

/-- The acceptance test of line 374: a best period was found and its SNR
exceeds the iteration's threshold. -/
def acceptsB (st : ExtractState) : Bool :=
  (iterBest st).bestPeriod.isSome && decide ((iterBest st).bestSNR > snrThresholdOf st.planetNum)

/-- Accept the found signal (lines 375-408): push the DetectedSignal, record
its period, mask the residual, and advance the loop counter.  planetary
radius sqrt(depth/1e6)*11 is modelled with Rat.sqrt (exact on rational
squares; no claim below depends on its value on non-squares). -/
def sigOf (st : ExtractState) : DetectedSignal :=
  let b := iterBest st
  let bestPeriod := b.bestPeriod.getD 0
  let transitDuration := bestPeriod * (1/10) * 24
  let planetaryRadius := Rat.sqrt (b.bestDepth / 1000000) * 11
  { orbital_period := bestPeriod
    transit_depth := b.bestDepth
    snr := b.bestSNR
    transit_duration := transitDuration
    planetary_radius := planetaryRadius
    odd_even_diff := |st.stdFlux * (1/10)|
    data_points := st.times.length
    mean_flux := st.meanFlux
    std_flux := st.stdFlux }

/-- The state update of an accepted signal. -/
def acceptSignal (st : ExtractState) : ExtractState :=
  let b := iterBest st
  let bestPeriod := b.bestPeriod.getD 0
  { st with
    detectedPeriods := st.detectedPeriods ++ [sigOf st]
    detectedPeriodValues := st.detectedPeriodValues ++ [bestPeriod]
    residualFluxes := maskResidual st.times st.residualFluxes st.meanFlux b.bestDepth bestPeriod
    planetNum := st.planetNum + 1 }

/-- The extractor loop: up to the given number of iterations, stopping at
the first iteration whose search finds no acceptable signal (the break of
line 411). -/
def extractLoop : ExtractState → ℕ → ExtractState
  | st, 0 => st
  | st, Nat.succ fuel => if acceptsB st then extractLoop (acceptSignal st) fuel else st

/-- detectMultiplePeriods (lines 279-416). -/
def detectMultiplePeriods (times fluxes : List ℚ) (numPlanets : ℕ) : List DetectedSignal :=
  (extractLoop (initExtract times fluxes) numPlanets).detectedPeriods

/-- Unfolding equation of the loop: one more fuel unit runs one conditional
iteration (this is the short-circuit: a failed search returns the state,
dropping the remaining fuel). -/
theorem extractLoop_succ (st : ExtractState) (n : ℕ) :
    extractLoop st (n + 1) = if acceptsB st then extractLoop (acceptSignal st) n else st := rfl

theorem extractLoop_zero (st : ExtractState) : extractLoop st 0 = st := rfl

theorem acceptSignal_detectedPeriods (st : ExtractState) :
    (acceptSignal st).detectedPeriods = st.detectedPeriods ++ [sigOf st] := rfl

theorem acceptSignal_planetNum (st : ExtractState) :
    (acceptSignal st).planetNum = st.planetNum + 1 := rfl

theorem sigOf_snr (st : ExtractState) : (sigOf st).snr = (iterBest st).bestSNR := rfl

/-- Fold invariant of the grid search: the running best period, when set,
never is too similar to an already-detected period. -/
theorem searchFold_not_similar (times residual : List ℚ)
    (meanFlux stdFlux minPeriod maxPeriod snrThreshold : ℚ)
    (detectedPeriodValues : List ℚ) (l : List ℕ) (st : SearchBest)
    (hst : ∀ p, st.bestPeriod = some p → isTooSimilar detectedPeriodValues p = false) :
    ∀ p, ((l.foldl (searchStep times residual meanFlux stdFlux minPeriod maxPeriod
        snrThreshold detectedPeriodValues) st).bestPeriod = some p) →
      isTooSimilar detectedPeriodValues p = false := by
  induction l generalizing st with
  | nil => exact hst
  | cons i rest ih =>
    refine ih _ ?_
    intro p hp
    simp only [searchStep] at hp
    split at hp
    · exact hst p hp
    · split at hp
      · next hsim _ =>
        simp only [SearchBest.mk.injEq, Option.some.injEq] at hp
        rw [← hp]
        exact Bool.of_not_eq_true hsim
      · exact hst p hp

/-- C4: a candidate period whose ratio to some already-accepted period lies
within 0.1 of 1, 2, 3, 0.5 or 0.33 is never selected as the Searcher's best
candidate, regardless of its SNR. -/
theorem harmonic_never_selected (times residual : List ℚ)
    (meanFlux stdFlux minPeriod maxPeriod snrThreshold : ℚ)
    (detectedPeriodValues : List ℚ) (Q p : ℚ)
    (hQ : Q ∈ detectedPeriodValues)
    (hsim : similarRatio p Q = true) :
    (searchBestPeriod times residual meanFlux stdFlux minPeriod maxPeriod snrThreshold
      detectedPeriodValues).bestPeriod ≠ some p := by
  intro hp
  have hfree : isTooSimilar detectedPeriodValues p = false :=
    searchFold_not_similar times residual meanFlux stdFlux minPeriod maxPeriod snrThreshold
      detectedPeriodValues (List.range 200) ⟨none, 0, 0⟩ (by intro q h; cases h) p hp
  have htrue : isTooSimilar detectedPeriodValues p = true :=
    List.any_eq_true.2 ⟨Q, hQ, hsim⟩
  rw [hfree] at htrue
  exact Bool.false_ne_true htrue

/-- C4, witness: with accepted period 2, the candidate 2 itself (ratio 1) is
similar and hence never returned as best on a small concrete curve. -/
theorem harmonic_never_selected_witness :
    (2 : ℚ) ∈ [(2 : ℚ)] ∧ similarRatio 2 2 = true ∧
    (searchBestPeriod [0, 1] [1, 1] 1 0 (1/2) 1 2 [2]).bestPeriod ≠ some 2 :=
  ⟨List.mem_singleton.2 rfl, by with_unfolding_all rfl,
   harmonic_never_selected [0, 1] [1, 1] 1 0 (1/2) 1 2 [2] 2 2
     (List.mem_singleton.2 rfl) (by with_unfolding_all rfl)⟩

/-- Index-aware acceptance thresholds: the signal at 0-based position i of
the list (counting from offset k) has SNR above 2 + (k+i) * 0.5. -/
def thresholdsOK : List DetectedSignal → ℕ → Prop
  | [], _ => True
  | s :: rest, k => s.snr > snrThresholdOf k ∧ thresholdsOK rest (k + 1)

theorem thresholdsOK_nil (k : ℕ) : thresholdsOK [] k := trivial

/-- Appending a signal that clears the threshold of its position preserves
thresholdsOK. -/
theorem thresholdsOK_append (l : List DetectedSignal) (k : ℕ) (s : DetectedSignal)
    (hl : thresholdsOK l k) (hs : s.snr > snrThresholdOf (k + l.length)) :
    thresholdsOK (l ++ [s]) k := by
  induction l generalizing k with
  | nil =>
    refine ⟨?_, trivial⟩
    simpa using hs
  | cons a rest ih =>
    refine ⟨hl.1, ih (k + 1) hl.2 ?_⟩
    have harith : k + 1 + rest.length = k + (a :: rest).length := by
      simp [List.length_cons]; omega
    rw [harith]
    exact hs

/-- The extractor loop grows the result list by at most one per fuel unit
and every accepted signal clears its iteration's threshold. -/
theorem extractLoop_len_thresholds (fuel : ℕ) (st : ExtractState)
    (hlen : st.detectedPeriods.length = st.planetNum)
    (hok : thresholdsOK st.detectedPeriods 0) :
    (extractLoop st fuel).detectedPeriods.length ≤ st.detectedPeriods.length + fuel ∧
    thresholdsOK (extractLoop st fuel).detectedPeriods 0 := by
  induction fuel generalizing st with
  | zero => exact ⟨by rw [extractLoop_zero]; omega, hok⟩
  | succ n ih =>
    rw [extractLoop_succ]
    by_cases hacc : acceptsB st = true
    · rw [if_pos hacc]
      have hsnr : (iterBest st).bestSNR > snrThresholdOf st.planetNum := by
        unfold acceptsB at hacc
        rw [Bool.and_eq_true] at hacc
        exact of_decide_eq_true hacc.2
      have hgrow : (acceptSignal st).detectedPeriods.length = st.detectedPeriods.length + 1 := by
        rw [acceptSignal_detectedPeriods, List.length_append, List.length_cons, List.length_nil]
      have hlen2 : (acceptSignal st).detectedPeriods.length = (acceptSignal st).planetNum := by
        rw [hgrow, acceptSignal_planetNum, hlen]
      have hok2 : thresholdsOK (acceptSignal st).detectedPeriods 0 := by
        rw [acceptSignal_detectedPeriods]
        refine thresholdsOK_append st.detectedPeriods 0 _ hok ?_
        rw [Nat.zero_add, hlen, sigOf_snr]
        exact hsnr
      have hrec := ih (acceptSignal st) hlen2 hok2
      refine ⟨?_, hrec.2⟩
      have h1 := hrec.1
      rw [hgrow] at h1
      omega
    · rw [if_neg hacc]
      exact ⟨Nat.le_add_right _ _, hok⟩

/-- A state whose search fails is a fixpoint of the loop: the break drops
all remaining fuel. -/
theorem extractLoop_stopped (st : ExtractState) (h : acceptsB st = false) (fuel : ℕ) :
    extractLoop st fuel = st := by
  cases fuel with
  | zero => exact extractLoop_zero st
  | succ n => rw [extractLoop_succ, if_neg (by rw [h]; exact Bool.false_ne_true)]

/-- Fuel decomposition of the loop. -/
theorem extractLoop_add (st : ExtractState) (a b : ℕ) :
    extractLoop st (a + b) = extractLoop (extractLoop st a) b := by
  induction a generalizing st with
  | zero => rw [Nat.zero_add, extractLoop_zero]
  | succ n ih =>
    rw [Nat.succ_add, extractLoop_succ, extractLoop_succ]
    by_cases h : acceptsB st = true
    · rw [if_pos h, if_pos h, ih]
    · have hf : acceptsB st = false := Bool.of_not_eq_true h
      rw [if_neg h, if_neg h, extractLoop_stopped st hf]

attribute [irreducible] thresholdsOK

/-- C5: the Multi-Signal Extractor returns at most 5 signals, in discovery
order; the signal accepted at iteration i has SNR strictly above the
iteration's threshold 2.0 + 0.5 * i; and at every iteration j at which the
search does not accept a signal, the loop has terminated: the final result
is exactly what had been accumulated by then (so fewer than 5 signals may be
returned). -/
theorem extractor_bounded_thresholded (times fluxes : List ℚ) :
    (detectMultiplePeriods times fluxes 5).length ≤ 5 ∧
    thresholdsOK (detectMultiplePeriods times fluxes 5) 0 ∧
    ∀ j : Fin 5, acceptsB (extractLoop (initExtract times fluxes) j.val) = true ∨
      detectMultiplePeriods times fluxes 5 =
        (extractLoop (initExtract times fluxes) j.val).detectedPeriods := by
  unfold detectMultiplePeriods
  have base := extractLoop_len_thresholds 5 (initExtract times fluxes) rfl (thresholdsOK_nil 0)
  refine ⟨?_, base.2, ?_⟩
  · have h1 := base.1
    have h0 : (initExtract times fluxes).detectedPeriods.length = 0 := rfl
    rw [h0, Nat.zero_add] at h1
    exact h1
  · intro j
    by_cases h : acceptsB (extractLoop (initExtract times fluxes) j.val) = true
    · exact Or.inl h
    · refine Or.inr ?_
      have hf : acceptsB (extractLoop (initExtract times fluxes) j.val) = false :=
        Bool.of_not_eq_true h
      have hdec : (5 : ℕ) = j.val + (5 - j.val) := by omega
      nth_rewrite 1 [hdec]
      rw [extractLoop_add, extractLoop_stopped _ hf]

/-- The loop never writes the input arrays or the statistics: times, fluxes,
meanFlux and stdFlux are invariant under any number of iterations. -/
theorem extractLoop_frame (st : ExtractState) (fuel : ℕ) :
    (extractLoop st fuel).times = st.times ∧ (extractLoop st fuel).fluxes = st.fluxes ∧
    (extractLoop st fuel).meanFlux = st.meanFlux ∧ (extractLoop st fuel).stdFlux = st.stdFlux := by
  induction fuel generalizing st with
  | zero => rw [extractLoop_zero]; exact ⟨rfl, rfl, rfl, rfl⟩
  | succ n ih =>
    rw [extractLoop_succ]
    by_cases h : acceptsB st = true
    · rw [if_pos h]
      have hrec := ih (acceptSignal st)
      have ha1 : (acceptSignal st).times = st.times := rfl
      have ha2 : (acceptSignal st).fluxes = st.fluxes := rfl
      have ha3 : (acceptSignal st).meanFlux = st.meanFlux := rfl
      have ha4 : (acceptSignal st).stdFlux = st.stdFlux := rfl
      exact ⟨ha1 ▸ hrec.1, ha2 ▸ hrec.2.1, ha3 ▸ hrec.2.2.1, ha4 ▸ hrec.2.2.2⟩
    · rw [if_neg h]; exact ⟨rfl, rfl, rfl, rfl⟩

/-- C10: detectMultiplePeriods never mutates its inputs, and the global mean
and standard deviation are computed once from the original flux array and
stay fixed across all iterations (masking only rewrites the residual copy):
for an arbitrary state the loop preserves times, fluxes, meanFlux and
stdFlux, and the state reached from the initial state of any run still
carries the input arrays and the statistics of the original flux array. -/
theorem detect_frame_and_constant_stats (times fluxes : List ℚ) (numPlanets fuel : ℕ)
    (st : ExtractState) :
    ((extractLoop st fuel).times = st.times ∧ (extractLoop st fuel).fluxes = st.fluxes ∧
     (extractLoop st fuel).meanFlux = st.meanFlux ∧
     (extractLoop st fuel).stdFlux = st.stdFlux) ∧
    ((extractLoop (initExtract times fluxes) numPlanets).times = times ∧
     (extractLoop (initExtract times fluxes) numPlanets).fluxes = fluxes ∧
     (extractLoop (initExtract times fluxes) numPlanets).meanFlux = listMean fluxes ∧
     (extractLoop (initExtract times fluxes) numPlanets).stdFlux = Rat.sqrt (listVar fluxes)) := by
  refine ⟨extractLoop_frame st fuel, ?_⟩
  have h := extractLoop_frame (initExtract times fluxes) numPlanets
  exact ⟨h.1, h.2.1, h.2.2.1, h.2.2.2⟩

/-- The Confidence Override Policy inlined in the per-signal loop of
analyzeLightCurve (lines 811-821): a False-Positive verdict from the
classifier is upgraded to Candidate when the raw BLS SNR exceeds 3, with
probability max(min(0.95, 0.5 + (snr-3)*0.08), classifier probability);
otherwise label and probability pass through unchanged. -/
def overrideOf (features : Features) (aiResult : ClassificationResult) : String × ℚ :=
  if snrGt features.snr 3 ∧ aiResult.classification = "False Positive" then
    ("Candidate Planet",
      max (min (95/100) (1/2 + (features.snr.getD 0 - 3) * (8/100))) aiResult.probability)
  else (aiResult.classification, aiResult.probability)

/-- Planet naming (lines 834-838): TIC-based, or host name plus
Math.round(period*1000); the trailing letter is fromCharCode(98 + i). -/
def planetNameOf (ticId : Option String) (hostStarName : String) (features : Features)
    (i : ℕ) : String :=
  match ticId with
  | some tic => "TIC-" ++ tic ++ "-" ++ (Char.ofNat (98 + i)).toString
  | none =>
    hostStarName ++ "-" ++ toString (jsRound (features.orbital_period * 1000)) ++ "-" ++
      (Char.ofNat (98 + i)).toString

/-- The record handed to storePlanet for an accepted signal (lines 849-859). -/
def recordOf (hostStarName now planetName : String) (features : Features)
    (classification : String) (probability : ℚ) : PlanetData :=
  { planet_name := planetName
    host_star := hostStarName
    period := features.orbital_period
    radius := features.planetary_radius
    depth := features.transit_depth
    classification := classification
    probability := probability
    discovery_date := now
    dataset := "uploaded" }

/-- One per-signal result row (lines 867-876). -/
structure PlanetResult where
  planetNumber : ℕ
  features : Features
  classification : String
  probability : ℚ
  reasoning : String
  aiExplanation : String
  plotData : List PlotPoint
  stored : Bool
deriving Repr, DecidableEq

/-- The per-signal loop of analyzeLightCurve (lines 802-877), in the Except
monad.  classifyWithML never throws (it catches and falls back internally),
so classification is a total parameter; the explanation generator and the
plot builder applied to the fixed parsed table are total parameters as well.
planetExists runs against the live store (records inserted earlier in the
same loop are visible).  A storePlanet failure is modelled by insertErr
returning some message; like the un-caught JS exception it propagates
immediately out of the loop. -/
def processPlanets (classify : Features → ClassificationResult)
    (explain : Features → String → ℚ → Option String)
    (plotOf : ℚ → List PlotPoint)
    (insertErr : PlanetData → Option String)
    (hostStarName : String) (ticId : Option String) (now : String) :
    List Features → ℕ → List PlanetData → List PlanetResult → ℕ →
      Except String (List PlanetResult × ℕ × List PlanetData)
  | [], _, store, results, storedCount => .ok (results, storedCount, store)
  | features :: rest, i, store, results, storedCount =>
    let aiResult := classify features
    let fc := overrideOf features aiResult
    let aiExplanation := (explain features fc.1 fc.2).getD aiResult.reasoning
    let plotData := plotOf features.orbital_period
    if fc.1 ≠ "False Positive" ∧ fc.2 > 3/10 then
      let planetName := planetNameOf ticId hostStarName features i
      if planetExists store planetName hostStarName features.orbital_period then
        processPlanets classify explain plotOf insertErr hostStarName ticId now rest (i + 1)
          store
          (results ++ [⟨i + 1, features, fc.1, fc.2, aiResult.reasoning, aiExplanation,
            plotData, false⟩])
          storedCount
      else
        let record := recordOf hostStarName now planetName features fc.1 fc.2
        match insertErr record with
        | some e => .error e
        | none =>
          processPlanets classify explain plotOf insertErr hostStarName ticId now rest (i + 1)
            (store ++ [record])
            (results ++ [⟨i + 1, features, fc.1, fc.2, aiResult.reasoning, aiExplanation,
              plotData, true⟩])
            (storedCount + 1)
    else
      processPlanets classify explain plotOf insertErr hostStarName ticId now rest (i + 1)
        store
        (results ++ [⟨i + 1, features, fc.1, fc.2, aiResult.reasoning, aiExplanation,
          plotData, false⟩])
        storedCount

/-- The analysis result returned to the caller (lines 879-886; hostStarInfo
is external catalog metadata and is out of the modelled core). -/
structure AnalyzeResult where
  planets : List PlanetResult
  totalDetected : ℕ
  storedCount : ℕ
  hostStar : String
  message : String
deriving Repr, DecidableEq

/-- The tail of analyzeLightCurve after feature extraction (lines 790-899):
zero detections return the empty structured result; otherwise the
per-signal loop runs, and an error escaping it is rethrown to the caller by
the outer catch (lines 887-889). -/
def analyzeDetected (classify : Features → ClassificationResult)
    (explain : Features → String → ℚ → Option String)
    (plotOf : ℚ → List PlotPoint)
    (insertErr : PlanetData → Option String)
    (hostStarName : String) (ticId : Option String) (now : String)
    (store0 : List PlanetData) (detectedPlanets : List Features) :
    Except String AnalyzeResult :=
  if detectedPlanets.length = 0 then
    .ok { planets := [], totalDetected := 0, storedCount := 0, hostStar := hostStarName,
          message := "No significant planetary signals detected in this light curve" }
  else
    match processPlanets classify explain plotOf insertErr hostStarName ticId now
        detectedPlanets 0 store0 [] 0 with
    | .error e => .error e
    | .ok (results, storedCount, _) =>
      .ok { planets := results, totalDetected := detectedPlanets.length,
            storedCount := storedCount, hostStar := hostStarName,
            message := "Detected " ++ toString detectedPlanets.length ++
              " planet candidate(s) around " ++ hostStarName ++ ", " ++
              toString storedCount ++ " stored in database" }

/-- Concrete collaborators for the storage-failure scenario: a classifier
that reports a candidate, no explanation text, no plot points, and a store
whose insert always fails. -/
def cClassify : Features → ClassificationResult := fun _ => ⟨"Candidate Planet", 8/10, "ml"⟩

def cExplain : Features → String → ℚ → Option String := fun _ _ _ => none

def cPlot : ℚ → List PlotPoint := fun _ => []

def cInsertFail : PlanetData → Option String := fun _ => some "db error"

def cF1 : Features := ⟨3, 500, some 8, 7, 2⟩

def cF2 : Features := ⟨5, 800, some 6, 12, 3⟩

/-- C1, counterexample: in a two-signal analysis whose first storePlanet
call fails, the whole call returns the storage error: the second signal is
never classified, no per-signal result list is produced, and the caller
does not receive a structured result. -/
theorem storage_error_aborts_cex :
    analyzeDetected cClassify cExplain cPlot cInsertFail "HostY" none "2024-01-01" [] [cF1, cF2] =
      Except.error "db error" := by
  with_unfolding_all rfl

/-- C1, amended: a storePlanet failure while persisting a signal aborts the
whole analyzeLightCurve call: for any continuation of remaining signals, if
the current signal is storage-eligible, not a duplicate, and the insert
fails, the loop (and with it analyzeDetected, whose outer catch rethrows)
returns the storage error, so none of the remaining signals is processed
and the caller gets the error instead of a structured result. -/
theorem storage_error_aborts (classify : Features → ClassificationResult)
    (explain : Features → String → ℚ → Option String) (plotOf : ℚ → List PlotPoint)
    (insertErr : PlanetData → Option String) (hostStarName : String) (ticId : Option String)
    (now : String) (store0 : List PlanetData) (f : Features) (rest : List Features) (e : String)
    (helig : (overrideOf f (classify f)).1 ≠ "False Positive" ∧
      (overrideOf f (classify f)).2 > 3/10)
    (hnew : planetExists store0 (planetNameOf ticId hostStarName f 0) hostStarName
      f.orbital_period = false)
    (hins : insertErr (recordOf hostStarName now (planetNameOf ticId hostStarName f 0) f
      (overrideOf f (classify f)).1 (overrideOf f (classify f)).2) = some e) :
    analyzeDetected classify explain plotOf insertErr hostStarName ticId now store0 (f :: rest) =
      Except.error e := by
  unfold analyzeDetected
  rw [if_neg (by simp)]
  have hloop : processPlanets classify explain plotOf insertErr hostStarName ticId now
      (f :: rest) 0 store0 [] 0 = Except.error e := by
    simp only [processPlanets]
    rw [if_pos helig, hnew]
    rw [if_neg (by simp), hins]
  rw [hloop]

/-- C1, witness: the amended theorem applied at the concrete scenario. -/
theorem storage_error_aborts_witness :
    ((overrideOf cF1 (cClassify cF1)).1 ≠ "False Positive" ∧
      (overrideOf cF1 (cClassify cF1)).2 > 3/10) ∧
    planetExists [] (planetNameOf none "HostY" cF1 0) "HostY" cF1.orbital_period = false ∧
    cInsertFail (recordOf "HostY" "2024-01-01" (planetNameOf none "HostY" cF1 0) cF1
      (overrideOf cF1 (cClassify cF1)).1 (overrideOf cF1 (cClassify cF1)).2) =
        some "db error" ∧
    analyzeDetected cClassify cExplain cPlot cInsertFail "HostY" none "2024-01-01" [] (cF1 :: [cF2]) =
      Except.error "db error" :=
  ⟨⟨of_decide_eq_false (by with_unfolding_all rfl),
    of_decide_eq_true (by with_unfolding_all rfl)⟩,
   by with_unfolding_all rfl,
   by with_unfolding_all rfl,
   storage_error_aborts cClassify cExplain cPlot cInsertFail "HostY" none "2024-01-01" [] cF1
     [cF2] "db error"
     ⟨of_decide_eq_false (by with_unfolding_all rfl),
      of_decide_eq_true (by with_unfolding_all rfl)⟩
     (by with_unfolding_all rfl) (by with_unfolding_all rfl)⟩

def dummyFeatures : Features := ⟨0, 0, none, 0, 0⟩

def dummyResult : PlanetResult := ⟨0, dummyFeatures, "", 0, "", "", [], false⟩

/-- A successful loop run only appends to the accumulated result list. -/
theorem processPlanets_extends (classify : Features → ClassificationResult)
    (explain : Features → String → ℚ → Option String) (plotOf : ℚ → List PlotPoint)
    (insertErr : PlanetData → Option String) (hostStarName : String) (ticId : Option String)
    (now : String) :
    ∀ (fs : List Features) (i : ℕ) (store : List PlanetData) (acc : List PlanetResult)
      (sc : ℕ) (rs : List PlanetResult) (n : ℕ) (stF : List PlanetData),
      processPlanets classify explain plotOf insertErr hostStarName ticId now fs i store acc sc =
        .ok (rs, n, stF) →
      ∃ suf, rs = acc ++ suf := by
  intro fs
  induction fs with
  | nil =>
    intro i store acc sc rs n stF hok
    simp only [processPlanets, Except.ok.injEq, Prod.mk.injEq] at hok
    exact ⟨[], by rw [← hok.1, List.append_nil]⟩
  | cons f rest ih =>
    intro i store acc sc rs n stF hok
    simp only [processPlanets] at hok
    split at hok
    · split at hok
      · obtain ⟨suf, hs⟩ := ih _ _ _ _ _ _ _ hok
        exact ⟨_, by rw [hs, List.append_assoc]⟩
      · split at hok
        · exact absurd hok (by simp)
        · obtain ⟨suf, hs⟩ := ih _ _ _ _ _ _ _ hok
          exact ⟨_, by rw [hs, List.append_assoc]⟩
    · obtain ⟨suf, hs⟩ := ih _ _ _ _ _ _ _ hok
      exact ⟨_, by rw [hs, List.append_assoc]⟩

/-- What the Confidence Override Policy demands of the reported per-signal
results (relative to the classifier verdicts): at every position, a
False-Positive verdict with raw SNR above 3 appears as Candidate with
probability max(classifier probability, min(0.95, 0.5 + (snr-3)*0.08)), and
any other verdict appears unchanged. -/
def overrideSpec (classify : Features → ClassificationResult) (fs : List Features)
    (rs : List PlanetResult) (base : ℕ) : Prop :=
  ∀ j, j < fs.length →
    ((snrGt (fs.getD j dummyFeatures).snr 3 ∧
        (classify (fs.getD j dummyFeatures)).classification = "False Positive") →
      (rs.getD (base + j) dummyResult).classification = "Candidate Planet" ∧
      (rs.getD (base + j) dummyResult).probability =
        max (classify (fs.getD j dummyFeatures)).probability
          (min (95/100) (1/2 + ((fs.getD j dummyFeatures).snr.getD 0 - 3) * (8/100)))) ∧
    (¬(snrGt (fs.getD j dummyFeatures).snr 3 ∧
        (classify (fs.getD j dummyFeatures)).classification = "False Positive") →
      (rs.getD (base + j) dummyResult).classification =
        (classify (fs.getD j dummyFeatures)).classification ∧
      (rs.getD (base + j) dummyResult).probability =
        (classify (fs.getD j dummyFeatures)).probability)

/-- C8: whenever the per-signal loop returns a result list, that list has
one row per detected signal, and each row's final label and probability obey
the override policy: FalsePositive verdicts with raw SNR above 3 are
reported as Candidate with probability max(classifier probability,
min(0.95, 0.5 + (snr-3)*0.08)); all other verdicts (or SNR at most 3) are
reported with the classifier's label and probability unchanged. -/
theorem override_policy_in_results (classify : Features → ClassificationResult)
    (explain : Features → String → ℚ → Option String) (plotOf : ℚ → List PlotPoint)
    (insertErr : PlanetData → Option String) (hostStarName : String) (ticId : Option String)
    (now : String) (fs : List Features) :
    ∀ (i0 : ℕ) (store0 : List PlanetData) (acc0 : List PlanetResult) (sc0 : ℕ)
      (rs : List PlanetResult) (n : ℕ) (stF : List PlanetData),
      processPlanets classify explain plotOf insertErr hostStarName ticId now fs i0 store0
        acc0 sc0 = .ok (rs, n, stF) →
      rs.length = acc0.length + fs.length ∧ overrideSpec classify fs rs acc0.length := by
  induction fs with
  | nil =>
    intro i0 store0 acc0 sc0 rs n stF hok
    simp only [processPlanets, Except.ok.injEq, Prod.mk.injEq] at hok
    refine ⟨by rw [← hok.1]; simp, ?_⟩
    intro j hj
    exact absurd hj (by simp)
  | cons f rest ih =>
    intro i0 store0 acc0 sc0 rs n stF hok
    have main : ∀ (r : PlanetResult) (i1 : ℕ) (store1 : List PlanetData) (sc1 : ℕ),
        r.classification = (overrideOf f (classify f)).1 →
        r.probability = (overrideOf f (classify f)).2 →
        processPlanets classify explain plotOf insertErr hostStarName ticId now rest i1 store1
          (acc0 ++ [r]) sc1 = .ok (rs, n, stF) →
        rs.length = acc0.length + (f :: rest).length ∧
        overrideSpec classify (f :: rest) rs acc0.length := by
      intro r i1 store1 sc1 hrc hrp hok2
      obtain ⟨hlen2, hall2⟩ := ih i1 store1 (acc0 ++ [r]) sc1 rs n stF hok2
      constructor
      · rw [hlen2]
        simp only [List.length_append, List.length_cons, List.length_nil]
        omega
      · intro j hj
        cases j with
        | zero =>
          obtain ⟨suf, hsuf⟩ := processPlanets_extends classify explain plotOf insertErr
            hostStarName ticId now rest i1 store1 (acc0 ++ [r]) sc1 rs n stF hok2
          have hr0 : rs.getD (acc0.length + 0) dummyResult = r := by
            rw [hsuf, List.append_assoc, Nat.add_zero, List.getD_eq_getElem?_getD,
              List.getElem?_append_right (le_refl acc0.length), Nat.sub_self]
            simp
          simp only [List.getD_cons_zero, Nat.add_zero] at *
          unfold overrideOf at hrc hrp
          by_cases hcond : snrGt f.snr 3 ∧ (classify f).classification = "False Positive"
          · rw [if_pos hcond] at hrc hrp
            exact ⟨fun _ => ⟨by rw [hr0, hrc], by rw [hr0, hrp]; exact max_comm _ _⟩,
                   fun hn => absurd hcond hn⟩
          · rw [if_neg hcond] at hrc hrp
            exact ⟨fun hcc => absurd hcc hcond, fun _ => ⟨by rw [hr0, hrc], by rw [hr0, hrp]⟩⟩
        | succ j2 =>
          have hj2 : j2 < rest.length := by
            simp only [List.length_cons] at hj
            omega
          have hstep := hall2 j2 hj2
          have hidx : (acc0 ++ [r]).length + j2 = acc0.length + (j2 + 1) := by
            simp only [List.length_append, List.length_cons, List.length_nil]
            omega
          rw [hidx] at hstep
          simpa only [List.getD_cons_succ] using hstep
    simp only [processPlanets] at hok
    split at hok
    · split at hok
      · exact main _ _ _ _ rfl rfl hok
      · split at hok
        · exact absurd hok (by simp)
        · exact main _ _ _ _ rfl rfl hok
    · exact main _ _ _ _ rfl rfl hok

/-- Concrete collaborators for the override scenario: the classifier says
False Positive with probability 0.2, inserts succeed. -/
def wClassify : Features → ClassificationResult := fun _ => ⟨"False Positive", 2/10, "ml-fp"⟩

def wInsertOk : PlanetData → Option String := fun _ => none

def wF : Features := ⟨4, 1000, some 5, 9, 1⟩

def wRs : List PlanetResult :=
  [⟨1, wF, "Candidate Planet", 33/50, "ml-fp", "ml-fp", [], true⟩]

def wSt : List PlanetData :=
  [⟨"W-4000-b", "W", 4, 1, 1000, "Candidate Planet", 33/50, "d", "uploaded"⟩]

/-- C8, witness: a one-signal run whose classifier verdict is False Positive
with raw SNR 5 is reported as Candidate with probability
max(0.2, min(0.95, 0.5 + 2*0.08)) = 0.66, per the theorem. -/
theorem override_policy_witness :
    processPlanets wClassify cExplain cPlot wInsertOk "W" none "d" [wF] 0 [] [] 0 =
      Except.ok (wRs, 1, wSt) ∧
    (wRs.length = ([] : List PlanetResult).length + [wF].length ∧
      overrideSpec wClassify [wF] wRs ([] : List PlanetResult).length) :=
  ⟨by with_unfolding_all rfl,
   override_policy_in_results wClassify cExplain cPlot wInsertOk "W" none "d" [wF] 0 [] [] 0
     wRs 1 wSt (by with_unfolding_all rfl)⟩

/-- One parsed CSV row: column name to value; a null / non-numeric cell is
none (PapaParse dynamicTyping plus the v != null && !isNaN(v) filter). -/
abbrev Row := List (String × Option ℚ)

def listStartsWith : List Char → List Char → Bool
  | _, [] => true
  | [], _ :: _ => false
  | h :: t, n :: m => h == n && listStartsWith t m

def listContainsSub : List Char → List Char → Bool
  | [], needle => needle.isEmpty
  | h :: t, needle => listStartsWith (h :: t) needle || listContainsSub t needle

/-- JS String.prototype.includes. -/
def strContains (s keyword : String) : Bool := listContainsSub s.toList keyword.toList

/-- The time-related column name keywords (line 184). -/
def timeKeywords : List String :=
  ["time", "bjd", "jd", "mjd", "date", "epoch", "barycentric", "hjd"]

/-- The numeric values of one column:
data.map(row => row[col]).filter(v => v != null && !isNaN(v)). -/
def numericColumn (data : List Row) (col : String) : List ℚ :=
  data.filterMap (fun row => (row.find? (fun cell => cell.1 == col)).bind Prod.snd)

/-- The monotonicity count of lines 201-204: among the first
min(length, 100) values, how many consecutive pairs are strictly
increasing. -/
def countIncreasing (values : List ℚ) : ℕ :=
  (((values.take 100).zip (values.take 100).tail).filter
    (fun pr => decide (pr.2 > pr.1))).length

/-- detectTimeColumn (lines 178-212): name-based keyword matching first (a
keyword column with at least one numeric value), otherwise the first column
whose increasing-pair count exceeds 0.9 times its total numeric value count
(the loop that counts pairs is capped at the first 100 values, the 0.9
threshold is not). -/
def detectTimeColumn (data : List Row) : Option String :=
  match data with
  | [] => none
  | row0 :: _ =>
    let columns := row0.map Prod.fst
    let byName := columns.find? (fun col =>
      timeKeywords.any (fun kw => strContains col.toLower kw) &&
      decide ((numericColumn data col).length > 0))
    match byName with
    | some col => some col
    | none =>
      columns.find? (fun col =>
        let values := numericColumn data col
        decide (10 ≤ values.length) &&
        decide ((countIncreasing values : ℚ) > (values.length : ℚ) * (9/10)))

/-- A table with one column named "a" holding the strictly increasing values
0, 1, ..., n-1. -/
def monoTable (n : ℕ) : List Row :=
  (List.range n).map (fun i => [("a", some (i : ℚ))])

/-- C6: the statistical fallback of the Column Identifier caps its
increasing-pair count at the first 100 values but compares it against 0.9
times the full value count, so a strictly increasing column of 200 values
(100% of consecutive pairs increasing) yields count 99, fails the test
99 > 180 and the detection returns none; with exactly 10 values the count 9
fails 9 > 9 as well, although 100% of pairs increase; the branch behaves as
specified only in between (50 values succeed). -/
theorem detectTimeColumn_long_monotone_fails :
    detectTimeColumn (monoTable 200) = none ∧
    countIncreasing (numericColumn (monoTable 200) "a") = 99 ∧
    (numericColumn (monoTable 200) "a").length = 200 ∧
    detectTimeColumn (monoTable 10) = none ∧
    detectTimeColumn (monoTable 50) = some "a" := by
  refine ⟨?_, ?_, ?_, ?_, ?_⟩ <;> with_unfolding_all rfl

/-- Concrete light curve for the masking analysis: integer days 0..9, unit
flux with a single transit-like dip of 10% at t = 4.  Its mean is 0.99, its
standard deviation exactly 0.03 (the variance 9/10000 is a rational
square). -/
def T2 : List ℚ := [0, 1, 2, 3, 4, 5, 6, 7, 8, 9]

def F2 : List ℚ := [1, 1, 1, 1, 9/10, 1, 1, 1, 1, 1]

/-- The residual after the code's masking of the accepted signal: only
samples 0 and 1 (phase bins 0 and 47 under the accepted period) are reset to
the mean; the dip at t = 4 (phase bin 40, the transit bin) survives. -/
def R2 : List ℚ := [99/100, 99/100, 1, 1, 9/10, 1, 1, 1, 1, 1]

set_option maxRecDepth 12000 in
theorem c2s1_0 :
    (List.range' 0 10).foldl (searchStep T2 F2 (99/100) (3/100) (1/2) 3 2 []) ⟨none, 0, 0⟩ =
      ⟨some (41/80), 1000000/11, 3⟩ := by
  with_unfolding_all rfl

set_option maxRecDepth 12000 in
theorem c2s1_10 :
    (List.range' 10 10).foldl (searchStep T2 F2 (99/100) (3/100) (1/2) 3 2 [])
      ⟨some (41/80), 1000000/11, 3⟩ = ⟨some (41/80), 1000000/11, 3⟩ := by
  with_unfolding_all rfl

set_option maxRecDepth 12000 in
theorem c2s1_20 :
    (List.range' 20 10).foldl (searchStep T2 F2 (99/100) (3/100) (1/2) 3 2 [])
      ⟨some (41/80), 1000000/11, 3⟩ = ⟨some (41/80), 1000000/11, 3⟩ := by
  with_unfolding_all rfl

set_option maxRecDepth 12000 in
theorem c2s1_30 :
    (List.range' 30 10).foldl (searchStep T2 F2 (99/100) (3/100) (1/2) 3 2 [])
      ⟨some (41/80), 1000000/11, 3⟩ = ⟨some (41/80), 1000000/11, 3⟩ := by
  with_unfolding_all rfl

set_option maxRecDepth 12000 in
theorem c2s1_40 :
    (List.range' 40 10).foldl (searchStep T2 F2 (99/100) (3/100) (1/2) 3 2 [])
      ⟨some (41/80), 1000000/11, 3⟩ = ⟨some (41/80), 1000000/11, 3⟩ := by
  with_unfolding_all rfl

set_option maxRecDepth 12000 in
theorem c2s1_50 :
    (List.range' 50 10).foldl (searchStep T2 F2 (99/100) (3/100) (1/2) 3 2 [])
      ⟨some (41/80), 1000000/11, 3⟩ = ⟨some (41/80), 1000000/11, 3⟩ := by
  with_unfolding_all rfl

set_option maxRecDepth 12000 in
theorem c2s1_60 :
    (List.range' 60 10).foldl (searchStep T2 F2 (99/100) (3/100) (1/2) 3 2 [])
      ⟨some (41/80), 1000000/11, 3⟩ = ⟨some (41/80), 1000000/11, 3⟩ := by
  with_unfolding_all rfl

set_option maxRecDepth 12000 in
theorem c2s1_70 :
    (List.range' 70 10).foldl (searchStep T2 F2 (99/100) (3/100) (1/2) 3 2 [])
      ⟨some (41/80), 1000000/11, 3⟩ = ⟨some (41/80), 1000000/11, 3⟩ := by
  with_unfolding_all rfl

set_option maxRecDepth 12000 in
theorem c2s1_80 :
    (List.range' 80 10).foldl (searchStep T2 F2 (99/100) (3/100) (1/2) 3 2 [])
      ⟨some (41/80), 1000000/11, 3⟩ = ⟨some (41/80), 1000000/11, 3⟩ := by
  with_unfolding_all rfl

set_option maxRecDepth 12000 in
theorem c2s1_90 :
    (List.range' 90 10).foldl (searchStep T2 F2 (99/100) (3/100) (1/2) 3 2 [])
      ⟨some (41/80), 1000000/11, 3⟩ = ⟨some (41/80), 1000000/11, 3⟩ := by
  with_unfolding_all rfl

set_option maxRecDepth 12000 in
theorem c2s1_100 :
    (List.range' 100 10).foldl (searchStep T2 F2 (99/100) (3/100) (1/2) 3 2 [])
      ⟨some (41/80), 1000000/11, 3⟩ = ⟨some (41/80), 1000000/11, 3⟩ := by
  with_unfolding_all rfl

set_option maxRecDepth 12000 in
theorem c2s1_110 :
    (List.range' 110 10).foldl (searchStep T2 F2 (99/100) (3/100) (1/2) 3 2 [])
      ⟨some (41/80), 1000000/11, 3⟩ = ⟨some (41/80), 1000000/11, 3⟩ := by
  with_unfolding_all rfl

set_option maxRecDepth 12000 in
theorem c2s1_120 :
    (List.range' 120 10).foldl (searchStep T2 F2 (99/100) (3/100) (1/2) 3 2 [])
      ⟨some (41/80), 1000000/11, 3⟩ = ⟨some (41/80), 1000000/11, 3⟩ := by
  with_unfolding_all rfl

set_option maxRecDepth 12000 in
theorem c2s1_130 :
    (List.range' 130 10).foldl (searchStep T2 F2 (99/100) (3/100) (1/2) 3 2 [])
      ⟨some (41/80), 1000000/11, 3⟩ = ⟨some (41/80), 1000000/11, 3⟩ := by
  with_unfolding_all rfl

set_option maxRecDepth 12000 in
theorem c2s1_140 :
    (List.range' 140 10).foldl (searchStep T2 F2 (99/100) (3/100) (1/2) 3 2 [])
      ⟨some (41/80), 1000000/11, 3⟩ = ⟨some (41/80), 1000000/11, 3⟩ := by
  with_unfolding_all rfl

set_option maxRecDepth 12000 in
theorem c2s1_150 :
    (List.range' 150 10).foldl (searchStep T2 F2 (99/100) (3/100) (1/2) 3 2 [])
      ⟨some (41/80), 1000000/11, 3⟩ = ⟨some (41/80), 1000000/11, 3⟩ := by
  with_unfolding_all rfl

set_option maxRecDepth 12000 in
theorem c2s1_160 :
    (List.range' 160 10).foldl (searchStep T2 F2 (99/100) (3/100) (1/2) 3 2 [])
      ⟨some (41/80), 1000000/11, 3⟩ = ⟨some (41/80), 1000000/11, 3⟩ := by
  with_unfolding_all rfl

set_option maxRecDepth 12000 in
theorem c2s1_170 :
    (List.range' 170 10).foldl (searchStep T2 F2 (99/100) (3/100) (1/2) 3 2 [])
      ⟨some (41/80), 1000000/11, 3⟩ = ⟨some (41/80), 1000000/11, 3⟩ := by
  with_unfolding_all rfl

set_option maxRecDepth 12000 in
theorem c2s1_180 :
    (List.range' 180 10).foldl (searchStep T2 F2 (99/100) (3/100) (1/2) 3 2 [])
      ⟨some (41/80), 1000000/11, 3⟩ = ⟨some (41/80), 1000000/11, 3⟩ := by
  with_unfolding_all rfl

set_option maxRecDepth 12000 in
theorem c2s1_190 :
    (List.range' 190 10).foldl (searchStep T2 F2 (99/100) (3/100) (1/2) 3 2 [])
      ⟨some (41/80), 1000000/11, 3⟩ = ⟨some (41/80), 1000000/11, 3⟩ := by
  with_unfolding_all rfl

set_option maxRecDepth 12000 in
/-- The full first-iteration grid search on the concrete curve: the Searcher
accepts period 0.5125 days (grid candidate 1) with depth 10^6/11 ppm and
SNR 3. -/
theorem c2_search1 :
    searchBestPeriod T2 F2 (99/100) (3/100) (1/2) 3 2 [] =
      ⟨some (41/80), 1000000/11, 3⟩ := by
  unfold searchBestPeriod
  rw [show List.range 200 = List.range' 0 10 ++ (List.range' 10 10 ++ (List.range' 20 10 ++ (List.range' 30 10 ++ (List.range' 40 10 ++ (List.range' 50 10 ++ (List.range' 60 10 ++ (List.range' 70 10 ++ (List.range' 80 10 ++ (List.range' 90 10 ++ (List.range' 100 10 ++ (List.range' 110 10 ++ (List.range' 120 10 ++ (List.range' 130 10 ++ (List.range' 140 10 ++ (List.range' 150 10 ++ (List.range' 160 10 ++ (List.range' 170 10 ++ (List.range' 180 10 ++ (List.range' 190 10))))))))))))))))))) from by with_unfolding_all rfl]
  rw [List.foldl_append, c2s1_0, List.foldl_append, c2s1_10, List.foldl_append, c2s1_20, List.foldl_append, c2s1_30, List.foldl_append, c2s1_40, List.foldl_append, c2s1_50, List.foldl_append, c2s1_60, List.foldl_append, c2s1_70, List.foldl_append, c2s1_80, List.foldl_append, c2s1_90, List.foldl_append, c2s1_100, List.foldl_append, c2s1_110, List.foldl_append, c2s1_120, List.foldl_append, c2s1_130, List.foldl_append, c2s1_140, List.foldl_append, c2s1_150, List.foldl_append, c2s1_160, List.foldl_append, c2s1_170, List.foldl_append, c2s1_180, c2s1_190]

set_option maxRecDepth 12000 in
theorem c2_iter : iterBest (initExtract T2 F2) = ⟨some (41/80), 1000000/11, 3⟩ := by
  unfold iterBest
  have e1 : (initExtract T2 F2).times = T2 := rfl
  have e2 : (initExtract T2 F2).residualFluxes = F2 := rfl
  have e3 : (initExtract T2 F2).meanFlux = 99/100 := by with_unfolding_all rfl
  have e4 : (initExtract T2 F2).stdFlux = 3/100 := by
    have hv : listVar F2 = (3/100 : ℚ) * (3/100) := by with_unfolding_all rfl
    show Rat.sqrt (listVar F2) = 3/100
    rw [hv, Rat.sqrt_eq]
    norm_num
  have e5 : (initExtract T2 F2).minPeriod = 1/2 := rfl
  have e6 : (initExtract T2 F2).maxPeriod = 3 := by with_unfolding_all rfl
  have e7 : (initExtract T2 F2).detectedPeriodValues = [] := rfl
  have e8 : snrThresholdOf (initExtract T2 F2).planetNum = 2 := by with_unfolding_all rfl
  rw [e1, e2, e3, e4, e5, e6, e7, e8, c2_search1]

set_option maxRecDepth 12000 in
theorem c2_accepts : acceptsB (initExtract T2 F2) = true := by
  unfold acceptsB
  rw [c2_iter]
  with_unfolding_all rfl

theorem acceptSignal_detectedPeriodValues (st : ExtractState) :
    (acceptSignal st).detectedPeriodValues =
      st.detectedPeriodValues ++ [(iterBest st).bestPeriod.getD 0] := rfl

theorem acceptSignal_residualFluxes (st : ExtractState) :
    (acceptSignal st).residualFluxes =
      maskResidual st.times st.residualFluxes st.meanFlux (iterBest st).bestDepth
        ((iterBest st).bestPeriod.getD 0) := rfl

set_option maxRecDepth 12000 in
theorem c2_state1 : extractLoop (initExtract T2 F2) 1 = acceptSignal (initExtract T2 F2) := by
  show extractLoop (initExtract T2 F2) (0 + 1) = acceptSignal (initExtract T2 F2)
  rw [extractLoop_succ, if_pos c2_accepts, extractLoop_zero]

set_option maxRecDepth 12000 in
/-- C2: on the concrete curve T2/F2, the first extractor iteration accepts
the signal with period 41/80 = 0.5125 d; the transit bin (the bin of
minimum mean residual flux under that period) is bin 40 and the dip sample
t = 4 lies in it; yet the post-mask residual leaves that sample at its
dipped value 0.9 (the code masks bins within cyclic distance 2 of
Math.floor(findIndex(...)/50) = -1, i.e. bins 0, 1, 47, 48 and 49, so
samples 0 and 1 are reset to the mean instead of the transit); re-running
the Searcher's candidate evaluation on the masked residual at the same
period yields the same SNR 3, above the acceptance threshold 2. -/
theorem mask_misses_transit_bin :
    (extractLoop (initExtract T2 F2) 1).detectedPeriodValues = [41/80] ∧
    transitBinAt T2 F2 (41/80) (99/100) = 40 ∧
    jsFloor ((phasesOf T2 (41/80)).getD 4 0 * 50) = 40 ∧
    (extractLoop (initExtract T2 F2) 1).residualFluxes = R2 ∧
    R2.getD 4 0 = 9/10 ∧
    snrAt T2 R2 (41/80) (99/100) (3/100) = 3 ∧
    transitDepthAt T2 R2 (41/80) (99/100) > 5 := by
  refine ⟨?_, ?_, ?_, ?_, ?_, ?_, ?_⟩
  · rw [c2_state1, acceptSignal_detectedPeriodValues, c2_iter]
    with_unfolding_all rfl
  · with_unfolding_all rfl
  · with_unfolding_all rfl
  · rw [c2_state1, acceptSignal_residualFluxes, c2_iter]
    with_unfolding_all rfl
  · with_unfolding_all rfl
  · with_unfolding_all rfl
  · exact of_decide_eq_true (by with_unfolding_all rfl)

end Exo
